import Mathlib

/-!
Shallow embedding of the OTIS_RI content generator (`lib/functions.py` and
`lib/functions_2.py`): spreadsheet cell values, the placeholder substitution
used by every generator (Python `str.replace` applied per record field), the
include filter, the cargo-ref construction, the industry demand/supply
resolver, and the block expansions of the industry PNML generator.
-/

/-- Model of a Python `float` cell: its exact rational value, its NaN flag and
its Python decimal string form (`str(f)`, supplied per concrete float, since
Python shortest-repr is not re-derived here).  `123.0` is `⟨123, false, "123.0"⟩`,
`123.4` is `⟨1234/10, false, "123.4"⟩`. -/
structure PyFloat where
  val : Rat
  isNan : Bool
  pstr : String
deriving DecidableEq

/-- The NaN marker pandas stores in missing cells; `str(nan)` is `"nan"`. -/
def nanFloat : PyFloat := ⟨0, true, ("nan")⟩

/-- The float `123.4` (the rational `617/5` in lowest terms, given by an
explicit `Rat` constructor so its denominator reduces in the kernel). -/
def float123p4 : PyFloat := ⟨⟨617, 5, by decide, by decide⟩, false, ("123.4")⟩

/-- Scalar Python values, as they appear as elements of list-valued fields. -/
inductive SVal where
  | int (n : Int)
  | float (f : PyFloat)
  | str (s : String)
  | bool (b : Bool)
deriving DecidableEq

/-- Python values held in record fields: scalars, or a list (derived fields
such as `accept_cargo_list` and `demand_customers` hold lists; the list
elements are modelled as scalars, which is all the claims need). -/
inductive PyVal where
  | int (n : Int)
  | float (f : PyFloat)
  | str (s : String)
  | bool (b : Bool)
  | list (l : List SVal)
deriving DecidableEq

/-- Python `repr` of a scalar: `repr` quotes strings; `str` of numbers and
booleans coincides with their `repr`. -/
def sRepr : SVal → String
  | SVal.int n => toString n
  | SVal.float f => f.pstr
  | SVal.str s => ("\x27") ++ s ++ ("\x27")
  | SVal.bool b => if b then ("True") else ("False")

/-- Python `str(value)`:  `str` of a list uses the `repr` of its elements. -/
def pyStr : PyVal → String
  | PyVal.int n => toString n
  | PyVal.float f => f.pstr
  | PyVal.str s => s
  | PyVal.bool b => if b then ("True") else ("False")
  | PyVal.list l => ("[") ++ String.intercalate (", ") (l.map sRepr) ++ ("]")

/-- A normalised spreadsheet row / JSON record: field names with values, in
column (insertion) order, as produced by `df.to_dict` / `row.to_dict()`. -/
abbrev Row : Type := List (String × PyVal)

/-- Python `dict.get(k)` / `row_data.get(k)`: `none` models Python `None`
(column absent). -/
def rowGet (row : Row) (k : String) : Option PyVal :=
  (List.find? (fun kv => kv.1 == k) row).map (fun kv => kv.2)

/-- `pd.notna(x)`: false exactly on `None` and float NaN. -/
def pdNotna : Option PyVal → Bool
  | none => false
  | some (PyVal.float f) => !f.isNan
  | some _ => true

/-- `pd.isna(x)` on a cell. -/
def pdIsna (c : Option PyVal) : Bool := !pdNotna c

/-- Python `isinstance(x, (int, float))`: booleans are instances of `int`
in Python; `None`, strings and lists are not numeric instances. -/
def isNumInst : Option PyVal → Bool
  | some (PyVal.int _) => true
  | some (PyVal.float _) => true
  | some (PyVal.bool _) => true
  | some (PyVal.str _) => false
  | some (PyVal.list _) => false
  | none => false

/-- Python `isinstance(x, (int, float, str, bool))`: the scalar guard used by
`CreateIndustries` (line 383) and the help-text generators (lines 636, 722). -/
def isScalarInst : PyVal → Bool
  | PyVal.list _ => false
  | _ => true

/-- Python `int(x)`, truncation toward zero, on the numeric values the guarded
call sites can reach.  On a non-numeric string or `None` the source raises
(`ValueError`/`TypeError`); those branches are unreachable under the guards
used in the theorems below and return a dummy 0 here. -/
def ratTrunc (q : Rat) : Int := if q < 0 then Int.ceil q else Int.floor q

/-- `int(cell)` as applied to a cell value. -/
def pyIntCell : Option PyVal → Int
  | some (PyVal.int n) => n
  | some (PyVal.float f) => ratTrunc f.val
  | some (PyVal.bool b) => if b then 1 else 0
  | some (PyVal.str s) => (s.toInt?).getD 0
  | some (PyVal.list _) => 0
  | none => 0

/-- `str(cell)`; `dict.get` of an absent key gives `None` and `str(None)` is
`"None"`. -/
def cellStr : Option PyVal → String
  | none => ("None")
  | some v => pyStr v

/-- Python `str.lower()` restricted to ASCII, which covers every value the
workbook cells and the literal `"true"` contain. -/
def pyLower (s : String) : String := String.mk (s.data.map Char.toLower)

/-- The include filter of the `functions.py` generators:
`str(record.get(include)).lower() == "true"` (lines 29, 126, 210, 294,
610, 693). -/
def includeFilter (c : Option PyVal) : Bool := pyLower (cellStr c) == ("true")

/-- The include filter of `functions_2.CreateCargoPNMLs` (line 96):
`data["include"] == True` under Python equality, where `1 == True` and
`1.0 == True` but `"TRUE" != True`. -/
def includeFilter2 : PyVal → Bool
  | PyVal.bool b => b
  | PyVal.int n => n == 1
  | PyVal.float f => !f.isNan && (f.val == 1)
  | _ => false

/-- `format_value_for_template` (functions.py lines 77-96): NaN becomes the
empty string, a numeric value equal to its integer truncation becomes the
decimal string of that integer, any other value becomes `str(value)`.
Python booleans pass the `isinstance(value, (int, float))` test and satisfy
`value == int(value)`, so they take the integer path. -/
def format_value_for_template : PyVal → String
  | PyVal.int n => toString n
  | PyVal.float f =>
      if f.isNan then ("")
      else if f.val.den == 1 then toString f.val.num else f.pstr
  | PyVal.bool b => if b then ("1") else ("0")
  | PyVal.str s => s
  | PyVal.list l => pyStr (PyVal.list l)

/-- One pass of Python `str.replace(p, r)` over a char list, scanning left to
right, replacing non-overlapping occurrences and never rescanning inserted
text.  `fuel` bounds the recursion; `fuel = s.length` fully processes `s`
whenever `p` is nonempty (every step consumes at least one character). -/
def replaceAux (p r : List Char) : Nat → List Char → List Char
  | _, [] => []
  | 0, s => s
  | Nat.succ n, c :: cs =>
      if List.isPrefixOf p (c :: cs) then
        r ++ replaceAux p r n (List.drop p.length (c :: cs))
      else
        c :: replaceAux p r n cs

/-- Python `s.replace(old, new)`. -/
def pyReplace (s old new : String) : String :=
  String.mk (replaceAux old.data new.data s.data.length s.data)

/-- Whether `p` occurs as a contiguous substring of `s`. -/
def hasSubstr : List Char → List Char → Bool
  | [], p => p.isEmpty
  | c :: cs, p => List.isPrefixOf p (c :: cs) || hasSubstr cs p

/-- The placeholder token for a field name: `f"_{key}_"`. -/
def tokenOf (k : String) : String := ("_") ++ k ++ ("_")

/-- One field step of the `CreateCargoPNMLs` substitution loop (functions.py
lines 151-158): replace `_key_` by the value formatted through
`format_value_for_template`. -/
def cpStep (acc : String) (kv : String × PyVal) : String :=
  pyReplace acc (tokenOf kv.1) (format_value_for_template kv.2)

/-- The per-record substitution of `CreateCargoPNMLs` (functions.py lines
151-158), over the fields in record order. -/
def renderCargoPNML (tpl : String) (record : Row) : String := record.foldl cpStep tpl

/-- One field step of the `CreateCargoLNGs` substitution loop (functions.py
lines 231-233): raw `str(value)`, with no whole-number formatting. -/
def clStep (acc : String) (kv : String × PyVal) : String :=
  pyReplace acc (tokenOf kv.1) (pyStr kv.2)

/-- The per-record substitution of `CreateCargoLNGs` (functions.py lines
231-233). -/
def renderCargoLNG (tpl : String) (record : Row) : String := record.foldl clStep tpl

/-- One field step of the scalar substitution of `CreateIndustries` (lines
380-384) and `CreateIndustryHelpText` (lines 634-637): only values passing
`isinstance(value, (int, float, str, bool))` are substituted, with `str(value)`. -/
def sfStep (acc : String) (kv : String × PyVal) : String :=
  if isScalarInst kv.2 then pyReplace acc (tokenOf kv.1) (pyStr kv.2) else acc

/-- The scalar-field substitution of `CreateIndustries` (functions.py lines
380-384) and `CreateIndustryHelpText` (lines 634-637). -/
def renderScalarFields (tpl : String) (record : Row) : String := record.foldl sfStep tpl

/-- The guard of `CreateIndustryLNGs` (line 557):
`isinstance(value, (int, float, str, bool, list, dict))` — every value this
model can represent passes. -/
def isLNGSubstitutable : PyVal → Bool := fun _ => true

/-- One field step of the `CreateIndustryLNGs` substitution loop (functions.py
lines 555-558): list- and dict-valued fields are substituted too, with
`str(value)`. -/
def ilStep (acc : String) (kv : String × PyVal) : String :=
  if isLNGSubstitutable kv.2 then pyReplace acc (tokenOf kv.1) (pyStr kv.2) else acc

/-- The per-record substitution of `CreateIndustryLNGs` (functions.py lines
555-558). -/
def renderIndustryLNG (tpl : String) (record : Row) : String := record.foldl ilStep tpl

/-- The cargo-type placeholder cleanup of `CreateIndustryHelpTextsLNGs`
(functions.py lines 744-747): any remaining `_primary_cargo_`,
`_secondary_cargo_`, `_support_cargo_`, `_supply_cargo_` token is replaced
with `"n/a"` (the `if placeholder in template_content` guard is redundant,
since replacing an absent pattern is the identity). -/
def helpCargoTypeCleanup (s : String) : String :=
  [("primary"), ("secondary"), ("support"), ("supply")].foldl
    (fun acc ty => pyReplace acc (("_") ++ ty ++ ("_cargo_")) (("n/a"))) s

/-- The column placeholder cleanup of `CreateIndustryHelpTextsLNGs`
(functions.py lines 754-757): any remaining `_column_` token, for a column of
the industries sheet, is replaced with `"N/A"`. -/
def helpColumnCleanup (columns : List String) (s : String) : String :=
  columns.foldl (fun acc col => pyReplace acc (tokenOf col) (("N/A"))) s

/-- The per-industry rendering of `CreateIndustryHelpTextsLNGs` (functions.py
lines 716-757): scalar substitution from the industries-sheet row, then the
accepted-cargo-name replacements (`acceptRepl` holds the
`accept_cargo_replacements` items, cargo type to joined names), then the
`"n/a"` cleanup for the four cargo types, then the `"N/A"` cleanup for the
industries-sheet columns. -/
def renderHelpLNG (tpl : String) (row : Row) (acceptRepl : List (String × String))
    (columns : List String) : String :=
  helpColumnCleanup columns
    (helpCargoTypeCleanup
      (acceptRepl.foldl
        (fun acc kv => pyReplace acc (("_") ++ kv.1 ++ ("_cargo_")) kv.2)
        (renderScalarFields tpl row)))

/-- `stock_num` of an accepted-cargo ref (functions.py line 315): converted
when its own field is non-missing and numeric, otherwise `None`. -/
def stockNumOf (row : Row) : Option Int :=
  if pdNotna (rowGet row ("stock_num")) && isNumInst (rowGet row ("stock_num")) then
    some (pyIntCell (rowGet row ("stock_num")))
  else none

/-- `cons_num` of an accepted-cargo ref (functions.py line 316). -/
def consNumOf (row : Row) : Option Int :=
  if pdNotna (rowGet row ("cons_num")) && isNumInst (rowGet row ("cons_num")) then
    some (pyIntCell (rowGet row ("cons_num")))
  else none

/-- `prod_num` of a produced-cargo ref (functions.py line 322). -/
def prodNumOf (row : Row) : Option Int :=
  if pdNotna (rowGet row ("prod_num")) && isNumInst (rowGet row ("prod_num")) then
    some (pyIntCell (rowGet row ("prod_num")))
  else none

/-- `demand_num` of a produced-cargo ref (functions.py line 323).  The source
tests `pd.notna` of the demand_num cell but then
`isinstance` of the prod_num cell against `(int, float)` — the type test reads
the `prod_num` field, not `demand_num`. -/
def demandNumOf (row : Row) : Option Int :=
  if pdNotna (rowGet row ("demand_num")) && isNumInst (rowGet row ("prod_num")) then
    some (pyIntCell (rowGet row ("demand_num")))
  else none

/-- `bias_num` of a produced-cargo ref (functions.py line 324). -/
def biasNumOf (row : Row) : Option Int :=
  if pdNotna (rowGet row ("bias_num")) && isNumInst (rowGet row ("bias_num")) then
    some (pyIntCell (rowGet row ("bias_num")))
  else none

/-- One accepted-cargo relationship of an industry (functions.py lines
312-317).  Cargo labels are modelled as strings (the `pd.notna`-guarded
`accept_cargo` cells of the workbook). -/
structure AcceptRef where
  accept_cargo : String
  accept_cargo_type : Option PyVal
  stock_num : Option Int
  cons_num : Option Int
deriving DecidableEq

/-- One produced-cargo relationship of an industry (functions.py lines
319-325). -/
structure ProduceRef where
  produce_cargo : String
  produce_cargo_type : Option PyVal
  prod_num : Option Int
  demand_num : Option Int
  bias_num : Option Int
deriving DecidableEq

/-- The produced-cargo ref built from one industry-sheet row (functions.py
lines 318-325), given the row has a non-missing `produce_cargo` label. -/
def buildProduceRef (label : String) (row : Row) : ProduceRef :=
  ⟨label, rowGet row ("produce_cargo_type"), prodNumOf row, demandNumOf row, biasNumOf row⟩

/-- The accepted-cargo ref built from one industry-sheet row (functions.py
lines 311-317). -/
def buildAcceptRef (label : String) (row : Row) : AcceptRef :=
  ⟨label, rowGet row ("accept_cargo_type"), stockNumOf row, consNumOf row⟩

/-- An included industry, as held in `industry_data` (functions.py lines
292-328): its unique name, its `industry_pack` group tag (a string cell, or
`none` when the column is absent — `None == None` is true in Python), and its
accepted and produced cargo lists in sheet order.  Industries whose
industry-specific sheet is missing carry empty lists. -/
structure Industry where
  name : String
  industry_pack : Option String
  accept_cargo_list : List AcceptRef
  produce_cargo_list : List ProduceRef
deriving DecidableEq

/-- One `demand_customers` entry (functions.py lines 350-354). -/
structure DemandCustomer where
  produce_cargo : String
  accepted_by : List String
  demand_num : Int
deriving DecidableEq

/-- The inner scan of one other industry accepted-cargo list (functions.py
lines 344-349): stop at the first entry whose `accept_cargo` equals the
target; the industry contributes exactly when, at that first match, the two
`industry_pack` tags are equal. -/
def scanAccept (ip jp : Option String) (t : String) : List AcceptRef → Bool
  | [] => false
  | a :: rest => if a.accept_cargo == t then ip == jp else scanAccept ip jp t rest

/-- The accepting-industries loop (functions.py lines 340-349): every other
industry, in input order, that first-matches the target cargo and shares the
group tag. -/
def acceptingIndustries (iname : String) (ip : Option String) (t : String) :
    List Industry → List String
  | [] => []
  | j :: rest =>
      if j.name == iname then acceptingIndustries iname ip t rest
      else if scanAccept ip j.industry_pack t j.accept_cargo_list then
        j.name :: acceptingIndustries iname ip t rest
      else acceptingIndustries iname ip t rest

/-- The resolver for one industry (functions.py lines 333-355): one
`demand_customers` entry per produced cargo with non-null `demand_num`, in
production order, carrying the discovered accepting industries and the
demand. -/
def demandCustomersOf (inds : List Industry) (me : Industry) : List DemandCustomer :=
  me.produce_cargo_list.filterMap
    (fun p =>
      (p.demand_num).map
        (fun d =>
          ⟨p.produce_cargo, acceptingIndustries me.name me.industry_pack p.produce_cargo inds, d⟩))

/-- Modelled from the spec words, for comparison with `demandCustomersOf`:
the list of other industries with the same group tag whose accepted-cargo
list contains the target label, in input order. -/
def acceptingIndustriesSpec (iname : String) (ip : Option String) (t : String)
    (inds : List Industry) : List String :=
  (inds.filter
      (fun j =>
        (!(j.name == iname))
          && (j.accept_cargo_list.any (fun a => a.accept_cargo == t) && (ip == j.industry_pack)))).map
    (fun j => j.name)

/-- Modelled from the spec words, for comparison with `demandCustomersOf`:
a consumers entry for exactly the produced cargos with non-null quantity,
in order, listing the same-group acceptors and carrying the demand. -/
def demandCustomersSpec (inds : List Industry) (me : Industry) : List DemandCustomer :=
  me.produce_cargo_list.filterMap
    (fun p =>
      (p.demand_num).map
        (fun d =>
          ⟨p.produce_cargo,
            acceptingIndustriesSpec me.name me.industry_pack p.produce_cargo inds, d⟩))

/-- One summand list of the demand constraint (functions.py line 460):
`" + ".join(f"industry_count({industry})" ...)`. -/
def industryCountSum (names : List String) : String :=
  String.intercalate (" + ") (names.map (fun n => ("industry_count(") ++ n ++ (")")))

/-- The STORE_PERM line emitted for one consumers entry (functions.py
line 461). -/
def demandCustomerLine (c : DemandCustomer) : String :=
  ("\t\t\t\tSTORE_PERM (") ++ industryCountSum c.accepted_by
    ++ (",\n\t\t\t\t\t\t\t") ++ toString c.demand_num ++ ("),\n")

/-- One step of the `_demand_customers_` accumulation (functions.py lines
456-462): append a line only when the `accepted_by` list is non-empty. -/
def dcStep (acc : String) (c : DemandCustomer) : String :=
  if c.accepted_by.isEmpty then acc else acc ++ demandCustomerLine c

/-- The `_demand_customers_` block (functions.py lines 454-463). -/
def demandCustomersBlock (l : List DemandCustomer) : String := l.foldl dcStep ("")

/-- The type-specific industry PNML template path (functions.py line 373). -/
def typeIndustryTemplate (ty : String) : String :=
  ("src/templates/") ++ ty ++ ("_industry_template.pnml")

/-- The fallback industry PNML template path (functions.py line 375). -/
def defaultIndustryTemplate : String := ("src/templates/industry_template.pnml")

/-- Template selection of `CreateIndustries` (functions.py lines 371-375):
the type-specific template when the file exists, else the default.  `avail`
models `os.path.exists`. -/
def selectIndustryTemplate (avail : String → Bool) (ty : String) : String :=
  if avail (typeIndustryTemplate ty) then typeIndustryTemplate ty
  else defaultIndustryTemplate

/-- The type-specific help-text template path (functions.py line 615). -/
def typeHelpTemplate (ty : String) : String :=
  ("src/templates/") ++ ty ++ ("_industry_help_template.pnml")

/-- The per-industry step of `CreateIndustryHelpText` (functions.py lines
615-638): when the type-specific template is absent the industry is skipped
(`continue`), producing no output; otherwise the template content is rendered
with the scalar fields of the row.  `templates` maps an existing path to its
content. -/
def helpTextOutput (avail : String → Bool) (templates : String → String)
    (ty : String) (row : Row) : Option String :=
  if avail (typeHelpTemplate ty) then
    some (renderScalarFields (templates (typeHelpTemplate ty)) row)
  else none

/-- Python whitespace stripped by `str.strip()` (the ASCII part, which is all
the generated text contains). -/
def pyWhitespaceChar (c : Char) : Bool :=
  c == ' ' || c == '\t' || c == '\n' || c == '\r' || c == '\x0b' || c == '\x0c'

/-- Python `s.strip()`. -/
def pyStrip (s : String) : String :=
  String.mk (((s.data.dropWhile pyWhitespaceChar).reverse.dropWhile pyWhitespaceChar).reverse)

/-- One step of the combined-output accumulation used by every inlining
generator: `combined += rendered + "\n\n"`. -/
def renderStep (tpl : String) (acc : String) (r : Row) : String :=
  acc ++ (renderCargoPNML tpl r ++ ("\n\n"))

/-- The in-memory combined buffer of `CreateCargoPNMLs` (functions.py lines
126, 136-168): included records, in input order, each rendered and appended
with a blank-line separator.  Line 173 writes `pyStrip` of this buffer. -/
def combinedCargoPNML (tpl : String) (records : List Row) : String :=
  (records.filter (fun r => includeFilter (rowGet r ("include")))).foldl
    (renderStep tpl) ("")

/-- The combined LNG buffer of `CreateIndustryLNGs` (functions.py lines
529-574): the per-industry JSON records are visited in `os.listdir` order
(`entries` carries the listing order with each folder record), rendered and
concatenated, and the written file is the stripped buffer. -/
def industryLNGCombined (tpl : String) (entries : List (String × Row)) : String :=
  pyStrip
    (entries.foldl (fun acc e => acc ++ (renderIndustryLNG tpl e.2 ++ ("\n\n"))) (""))

/-- The per-record file creation loop of `functions_2.CreateCargoPNMLs`
(lines 111-119): it iterates over every record of the JSON (not only the
active ones), creating one file per record; the first write replaces
the token `_name_` with an underscore followed by the record name.
Subsequent steps rewrite the same file
in place. -/
def individualCargoFiles2 (tpl : String) (cargo : List (String × Row)) :
    List (String × String) :=
  cargo.map (fun kv => (kv.1, pyReplace tpl (("_name_")) (("_") ++ kv.1)))

/-- The active filter of `functions_2.CreateCargoPNMLs` (line 96), keyed by
the `include` value of each record (`data["include"] == True`; the source
raises `KeyError` when the key is absent, modelled as exclusion). -/
def activeCargo2 (cargo : List (String × Row)) : List (String × Row) :=
  cargo.filter
    (fun kv =>
      match rowGet kv.2 ("include") with
      | some v => includeFilter2 v
      | none => false)

/-- Test fixture: industry A produces cargo X with demand 50, group G1. -/
def indA : Industry := ⟨("A"), some ("G1"), [], [⟨("X"), none, none, some 50, none⟩]⟩

/-- Test fixture: industry B accepts cargo X, group G1. -/
def indB : Industry := ⟨("B"), some ("G1"), [⟨("X"), none, none, none⟩], []⟩

/-- Test fixture: industry C accepts cargo X, group G2. -/
def indC : Industry := ⟨("C"), some ("G2"), [⟨("X"), none, none, none⟩], []⟩

/-- Test fixture: industry A producing cargo Y with null demand. -/
def indA0 : Industry := ⟨("A"), some ("G1"), [], [⟨("Y"), none, some 10, none, none⟩]⟩

theorem str_nil_append (s : String) : ("") ++ s = s := by
  cases s with
  | mk d => rfl

theorem str_append_nil (s : String) : s ++ ("") = s := by
  cases s with
  | mk d =>
      show String.mk (d ++ []) = String.mk d
      rw [List.append_nil]

theorem str_append_assoc (a b c : String) : (a ++ b) ++ c = a ++ (b ++ c) := by
  cases a with
  | mk x =>
      cases b with
      | mk y =>
          cases c with
          | mk z =>
              show String.mk ((x ++ y) ++ z) = String.mk (x ++ (y ++ z))
              rw [List.append_assoc]

theorem foldl_strings (ls : List String) : ∀ (acc : String),
    ls.foldl (fun a s => a ++ s) acc = acc ++ String.join ls := by
  induction ls with
  | nil =>
      intro acc
      exact (str_append_nil acc).symm
  | cons x xs ih =>
      intro acc
      have hx : String.join (x :: xs) = x ++ String.join xs := by
        show xs.foldl (fun a s => a ++ s) (("") ++ x) = x ++ String.join xs
        rw [ih (("") ++ x), str_nil_append]
      calc (x :: xs).foldl (fun a s => a ++ s) acc
          = xs.foldl (fun a s => a ++ s) (acc ++ x) := rfl
        _ = (acc ++ x) ++ String.join xs := ih (acc ++ x)
        _ = acc ++ (x ++ String.join xs) := str_append_assoc acc x (String.join xs)
        _ = acc ++ String.join (x :: xs) := by rw [hx]

theorem foldl_append_join {α : Type} (g : α → String) (l : List α) (acc : String) :
    l.foldl (fun a r => a ++ g r) acc = acc ++ String.join (l.map g) := by
  rw [← List.foldl_map]
  exact foldl_strings (l.map g) acc

theorem replaceAux_of_not (p r : List Char) :
    ∀ (n : Nat) (s : List Char), hasSubstr s p = false → replaceAux p r n s = s := by
  intro n
  induction n with
  | zero =>
      intro s _
      cases s <;> rfl
  | succ n ih =>
      intro s h
      cases s with
      | nil => rfl
      | cons c cs =>
          simp only [hasSubstr, Bool.or_eq_false_iff] at h
          simp only [replaceAux, h.1, Bool.false_eq_true, if_false]
          rw [ih cs h.2]

theorem pyReplace_of_not (s old new : String) (h : hasSubstr s.data old.data = false) :
    pyReplace s old new = s := by
  cases s with
  | mk d =>
      show String.mk (replaceAux old.data new.data d.length d) = String.mk d
      rw [replaceAux_of_not old.data new.data d.length d h]

theorem scanAccept_eq (ip jp : Option String) (t : String) (l : List AcceptRef) :
    scanAccept ip jp t l = (l.any (fun a => a.accept_cargo == t) && (ip == jp)) := by
  induction l with
  | nil => simp [scanAccept]
  | cons a rest ih =>
      cases h : (a.accept_cargo == t) with
      | true => simp [scanAccept, h]
      | false => simp [scanAccept, h, ih]

theorem acceptingIndustries_eq (iname : String) (ip : Option String) (t : String)
    (inds : List Industry) :
    acceptingIndustries iname ip t inds = acceptingIndustriesSpec iname ip t inds := by
  induction inds with
  | nil => simp [acceptingIndustries, acceptingIndustriesSpec]
  | cons j rest ih =>
      cases hn : (j.name == iname) with
      | true =>
          simp [acceptingIndustries, acceptingIndustriesSpec, hn, List.filter_cons, ih]
      | false =>
          cases hs : scanAccept ip j.industry_pack t j.accept_cargo_list with
          | true =>
              simp [acceptingIndustries, acceptingIndustriesSpec, hn, ← scanAccept_eq,
                List.filter_cons, hs, ih]
          | false =>
              simp [acceptingIndustries, acceptingIndustriesSpec, hn, ← scanAccept_eq,
                List.filter_cons, hs, ih]

theorem dcStep_filter (l : List DemandCustomer) : ∀ (acc : String),
    l.foldl dcStep acc = (l.filter (fun c => !c.accepted_by.isEmpty)).foldl dcStep acc := by
  induction l with
  | nil => intro acc; rfl
  | cons c rest ih =>
      intro acc
      cases h : c.accepted_by.isEmpty with
      | true => simp [dcStep, h, List.filter_cons, ih]
      | false => simp [dcStep, h, List.filter_cons, ih]

/-- Claim C1: after resolution over the full included industry set, every
industry has a consumers entry for exactly the produced cargos with non-null
quantity, each listing, in input order and without duplicates, exactly the
other same-group industries whose accepted-cargo list contains the cargo
label (one match per consumer), with demand equal to the quantity; in
particular A/B/C resolve to `A.consumers = [⟨X, [B], 50⟩]`, and a null-demand
produced cargo gets no entry. -/
theorem claim1_resolver_consumers :
    (∀ (inds : List Industry) (me : Industry),
        demandCustomersOf inds me = demandCustomersSpec inds me)
    ∧ demandCustomersOf [indA, indB, indC] indA = [⟨("X"), [("B")], 50⟩]
    ∧ demandCustomersOf [indA0, indB, indC] indA0 = [] := by
  refine ⟨fun inds me => ?_, by decide, by decide⟩
  unfold demandCustomersOf demandCustomersSpec
  simp [acceptingIndustries_eq]

/-- Claim C2 (code divergence): rendering `"ID=_id_, _id_label_"` with fields
`id = "5"`, `id_label = "crate"` (in that record order) through the
`CreateCargoPNMLs` substitution yields `"ID=5, 5label_"`, not the
`"ID=5, crate"` the claim requires: the source uses naive sequential
`str.replace`, so the `_id_` pass corrupts `_id_label_`. -/
theorem claim2_naive_replace_eval :
    renderCargoPNML ("ID=_id_, _id_label_")
        [(("id"), PyVal.str ("5")), (("id_label"), PyVal.str ("crate"))]
      = ("ID=5, 5label_")
    ∧ renderCargoPNML ("ID=_id_, _id_label_")
        [(("id"), PyVal.str ("5")), (("id_label"), PyVal.str ("crate"))]
      ≠ ("ID=5, crate") := by
  constructor
  · decide
  · decide

/-- Claim C3 counterexample: in `CreateCargoLNGs` a substituted numeric value
equal to its integer truncation is rendered with its fractional part —
`123.0` becomes `"123.0"`, not `"123"` — because that generator substitutes
raw `str(value)` and never calls the normalizer. -/
theorem claim3_counterexample :
    renderCargoLNG ("_q_") [(("q"), PyVal.float ⟨123, false, ("123.0")⟩)] = ("123.0")
    ∧ renderCargoLNG ("_q_") [(("q"), PyVal.float ⟨123, false, ("123.0")⟩)] ≠ ("123") := by
  constructor
  · decide
  · decide

/-- Claim C3 as amended: only `CreateCargoPNMLs` normalizes values through
`format_value_for_template` (integral floats lose the fractional part,
non-integral floats keep their float form, NaN becomes the empty string,
and every integral float renders as its integer decimal string);
`CreateCargoLNGs` substitutes raw `str(value)`, so there `123.0` renders as
`"123.0"` and a missing value renders as `"nan"`. -/
theorem claim3_amended :
    format_value_for_template (PyVal.float ⟨123, false, ("123.0")⟩) = ("123")
    ∧ format_value_for_template (PyVal.float float123p4) = ("123.4")
    ∧ format_value_for_template (PyVal.float nanFloat) = ("")
    ∧ (∀ (n : Int) (r : String),
        format_value_for_template (PyVal.float ⟨(n : Rat), false, r⟩) = toString n)
    ∧ renderCargoLNG ("_q_") [(("q"), PyVal.float nanFloat)] = ("nan") := by
  refine ⟨by decide, by decide, by decide, fun n r => ?_, by decide⟩
  simp [format_value_for_template, Rat.den_intCast, Rat.num_intCast]

/-- Claim C4 counterexample: in `functions_2.CreateCargoPNMLs` the active set
is computed with `data["include"] == True`, so a record whose include field
is the string `"TRUE"` is excluded (the claim says it must be included), and
the per-record file loop iterates over every record, so a record with
include `False` still gets an individual output file (the claim says it must
produce no output files at all). -/
theorem claim4_counterexample :
    includeFilter2 (PyVal.str ("TRUE")) = false
    ∧ includeFilter (some (PyVal.str ("TRUE"))) = true
    ∧ (activeCargo2 [(("coal"), [(("include"), PyVal.str ("TRUE"))])]).map
        (fun kv => kv.1) = []
    ∧ (individualCargoFiles2 ("t _name_") [(("coal"), [(("include"), PyVal.bool false)])]).map
        (fun kv => kv.1) = [("coal")] := by
  refine ⟨by decide, by decide, by decide, by decide⟩

/-- Claim C4 as amended: in the `functions.py` generators a record is
included iff `str(include).lower() == "true"` (`"TRUE"`, `"True"` and boolean
`True` included; `"yes"`, `""`, missing and boolean `False` excluded); in
`functions_2.CreateCargoPNMLs` the combined/merge output includes records iff
`include == True` under Python equality (boolean `True` and numeric `1`
included, the string `"TRUE"` excluded), and per-record files are written for
every record of the JSON regardless of its include value. -/
theorem claim4_amended :
    includeFilter (some (PyVal.str ("TRUE"))) = true
    ∧ includeFilter (some (PyVal.str ("True"))) = true
    ∧ includeFilter (some (PyVal.bool true)) = true
    ∧ includeFilter (some (PyVal.str ("yes"))) = false
    ∧ includeFilter (some (PyVal.str (""))) = false
    ∧ includeFilter none = false
    ∧ includeFilter (some (PyVal.bool false)) = false
    ∧ includeFilter (some (PyVal.float nanFloat)) = false
    ∧ includeFilter2 (PyVal.bool true) = true
    ∧ includeFilter2 (PyVal.int 1) = true
    ∧ includeFilter2 (PyVal.str ("TRUE")) = false
    ∧ (∀ (tpl : String) (cargo : List (String × Row)),
        (individualCargoFiles2 tpl cargo).map (fun kv => kv.1)
          = cargo.map (fun kv => kv.1)) := by
  refine ⟨by decide, by decide, by decide, by decide, by decide, by decide, by decide,
    by decide, by decide, by decide, by decide, fun tpl cargo => ?_⟩
  simp [individualCargoFiles2, List.map_map, Function.comp]

/-- Claim C5 (code divergence): the nullness of a produced cargo ref
`demand_num` depends on the `prod_num` field: a row whose own `demand_num` is
the numeric 50 but which has no `prod_num` cell yields a null `demand_num`
(the conversion at functions.py line 323 tests
`isinstance` of the prod_num cell against `(int, float)`), while the same row
with a numeric `prod_num` yields 50. -/
theorem claim5_demand_gated_on_prod :
    demandNumOf [(("produce_cargo"), PyVal.str ("X")), (("demand_num"), PyVal.int 50)] = none
    ∧ pdNotna (rowGet [(("produce_cargo"), PyVal.str ("X")), (("demand_num"), PyVal.int 50)]
        ("demand_num")) = true
    ∧ isNumInst (rowGet [(("produce_cargo"), PyVal.str ("X")), (("demand_num"), PyVal.int 50)]
        ("demand_num")) = true
    ∧ demandNumOf [(("demand_num"), PyVal.int 50), (("prod_num"), PyVal.int 10)] = some 50
    ∧ (buildProduceRef ("X")
        [(("produce_cargo"), PyVal.str ("X")), (("demand_num"), PyVal.int 50)]).demand_num
      = none := by
  refine ⟨by decide, by decide, by decide, by decide, by decide⟩

/-- Claim C6 counterexample: the combined output of `CreateIndustryLNGs`
depends on the directory-listing order — the same two per-industry records
visited in the two possible `os.listdir` orders produce different combined
files — so iteration does not follow a single fixed input order independent
of directory-listing order. -/
theorem claim6_counterexample :
    industryLNGCombined ("_industry_item_name_")
        [(("a"), [(("industry_item_name"), PyVal.str ("a"))]),
          (("b"), [(("industry_item_name"), PyVal.str ("b"))])]
      ≠ industryLNGCombined ("_industry_item_name_")
        [(("b"), [(("industry_item_name"), PyVal.str ("b"))]),
          (("a"), [(("industry_item_name"), PyVal.str ("a"))])] := by
  decide

/-- Claim C6 as amended: the spreadsheet-driven generators do iterate in
input order — the combined cargo PNML buffer is exactly the concatenation,
in original input order, of the included records renders, a pure function of
the input record list — but `CreateIndustryLNGs` visits industry folders in
directory-listing order and the `functions_2` cargo merge header iterates a
set, so byte-identical re-runs are guaranteed only while those environment
orders are unchanged. -/
theorem claim6_amended (tpl : String) (records : List Row) :
    combinedCargoPNML tpl records
      = String.join
          ((records.filter (fun r => includeFilter (rowGet r ("include")))).map
            (fun r => renderCargoPNML tpl r ++ ("\n\n"))) := by
  have h := foldl_append_join (fun r => renderCargoPNML tpl r ++ ("\n\n"))
      (records.filter (fun r => includeFilter (rowGet r ("include")))) ("")
  rw [str_nil_append] at h
  exact h

/-- Claim C7 counterexample: in `CreateIndustryHelpTextsLNGs` a placeholder
that matches no field and no block is not left verbatim: with no matching
cargo data the token `_primary_cargo_` is rewritten to `"n/a"`. -/
theorem claim7_counterexample :
    renderHelpLNG ("_primary_cargo_") [] [] [] = ("n/a")
    ∧ renderHelpLNG ("_primary_cargo_") [] [] [] ≠ ("_primary_cargo_") := by
  constructor
  · decide
  · decide

/-- Claim C7 as amended: in the record-driven generators other than
`CreateIndustryHelpTextsLNGs`, substitution only replaces occurrences of the
record field tokens, so a template in which no field token occurs is rendered
verbatim and no substitute value is ever written; `CreateIndustryHelpTextsLNGs`
alone rewrites leftover cargo-type placeholders to `"n/a"` and leftover
industries-sheet column placeholders to `"N/A"`. -/
theorem claim7_amended : ∀ (tpl : String) (record : Row),
    (∀ kv ∈ record, hasSubstr tpl.data (tokenOf kv.1).data = false) →
    renderCargoPNML tpl record = tpl := by
  intro tpl record
  induction record with
  | nil => intro _; rfl
  | cons kv rest ih =>
      intro h
      have h1 : cpStep tpl kv = tpl :=
        pyReplace_of_not tpl (tokenOf kv.1) (format_value_for_template kv.2)
          (h kv (by simp))
      calc renderCargoPNML tpl (kv :: rest)
          = rest.foldl cpStep (cpStep tpl kv) := rfl
        _ = rest.foldl cpStep tpl := by rw [h1]
        _ = tpl := ih (fun kv2 hm => h kv2 (by simp [hm]))

/-- Witness for the amended claim C7 at a concrete input: a template that is
a single unmatched placeholder is returned verbatim. -/
theorem claim7_amended_witness :
    renderCargoPNML ("output=_unknown_") [(("id"), PyVal.str ("5"))]
      = ("output=_unknown_") :=
  claim7_amended ("output=_unknown_") [(("id"), PyVal.str ("5"))] (by decide)

/-- Claim C8 counterexample: `CreateIndustryLNGs` substitutes a list-valued
field through its per-field pass, so the derived `accept_cargo_list` appears
in the output as a stringified Python literal. -/
theorem claim8_counterexample :
    renderIndustryLNG ("x _accept_cargo_list_ y")
        [(("accept_cargo_list"), PyVal.list [SVal.str ("COAL")])]
      = ("x [\x27COAL\x27] y")
    ∧ renderIndustryLNG ("x _accept_cargo_list_ y")
        [(("accept_cargo_list"), PyVal.list [SVal.str ("COAL")])]
      ≠ ("x _accept_cargo_list_ y") := by
  constructor
  · decide
  · decide

/-- Claim C8 as amended: the `CreateIndustries` PNML pass and the help-text
generators substitute only fields whose value passes the scalar
`isinstance(value, (int, float, str, bool))` guard — rendering a record there
equals rendering only its scalar fields, so list-valued fields never flow
through that path — whereas `CreateIndustryLNGs` also substitutes list- and
dict-valued fields with `str(value)`. -/
theorem claim8_amended : ∀ (tpl : String) (record : Row),
    renderScalarFields tpl record
      = renderScalarFields tpl (record.filter (fun kv => isScalarInst kv.2)) := by
  intro tpl record
  induction record generalizing tpl with
  | nil => rfl
  | cons kv rest ih =>
      cases h : isScalarInst kv.2 with
      | true =>
          calc renderScalarFields tpl (kv :: rest)
              = rest.foldl sfStep (sfStep tpl kv) := rfl
            _ = renderScalarFields (sfStep tpl kv)
                  (rest.filter (fun kv => isScalarInst kv.2)) := ih (sfStep tpl kv)
            _ = renderScalarFields tpl
                  ((kv :: rest).filter (fun kv => isScalarInst kv.2)) := by
                    simp [renderScalarFields, List.filter_cons, h]
      | false =>
          calc renderScalarFields tpl (kv :: rest)
              = rest.foldl sfStep (sfStep tpl kv) := rfl
            _ = rest.foldl sfStep tpl := by simp [sfStep, h]
            _ = renderScalarFields tpl
                  ((kv :: rest).filter (fun kv => isScalarInst kv.2)) := by
                    simp [renderScalarFields, List.filter_cons, h]
                    exact ih tpl

/-- Claim C9 counterexample: with only the default industry template on disk,
`CreateIndustries` falls back and selects the default template, but
`CreateIndustryHelpText` produces no output for the industry at all — it
skips the industry instead of falling back. -/
theorem claim9_counterexample :
    selectIndustryTemplate (fun p => p == defaultIndustryTemplate) ("farm")
      = defaultIndustryTemplate
    ∧ helpTextOutput (fun p => p == defaultIndustryTemplate) (fun _ => ("T")) ("farm") []
      = none := by
  constructor
  · decide
  · decide

/-- Claim C9 as amended: when the type-specific template is absent,
`CreateIndustries` falls back to the generic default industry template and
still renders the industry, but `CreateIndustryHelpText` (and the help-text
LNG generator, which uses the same pattern) skips the industry with a
warning, producing no output for it. -/
theorem claim9_amended (avail : String → Bool) (templates : String → String)
    (ty : String) (row : Row)
    (h1 : avail (typeIndustryTemplate ty) = false)
    (h2 : avail (typeHelpTemplate ty) = false) :
    selectIndustryTemplate avail ty = defaultIndustryTemplate
    ∧ helpTextOutput avail templates ty row = none := by
  constructor
  · simp [selectIndustryTemplate, h1]
  · simp [helpTextOutput, h2]

/-- Witness for the amended claim C9 at a concrete input: no template files
exist, so selection falls back and the help-text step is skipped. -/
theorem claim9_amended_witness :
    selectIndustryTemplate (fun _ => false) ("farm") = defaultIndustryTemplate
    ∧ helpTextOutput (fun _ => false) (fun _ => ("T")) ("farm") [] = none :=
  claim9_amended (fun _ => false) (fun _ => ("T")) ("farm") [] rfl rfl

/-- Claim C10: the `_demand_customers_` block emits a STORE_PERM line only
for consumers entries with a non-empty accepted-by list — the block over any
entry list equals the block over only its non-empty entries, an entry with no
acceptors contributes nothing, and a non-empty entry contributes the
industry-count sum line with its demand. -/
theorem claim10_demand_block :
    (∀ (l : List DemandCustomer),
        demandCustomersBlock l
          = demandCustomersBlock (l.filter (fun c => !c.accepted_by.isEmpty)))
    ∧ demandCustomersBlock [⟨("Y"), [], 50⟩] = ("")
    ∧ demandCustomersBlock [⟨("X"), [("B"), ("Cc")], 50⟩]
      = ("\t\t\t\tSTORE_PERM (industry_count(B) + industry_count(Cc),\n\t\t\t\t\t\t\t50),\n") := by
  refine ⟨fun l => ?_, by decide, by decide⟩
  exact dcStep_filter l ("")
